import Mathlib

/-!
Shallow embedding of `scripts/monitor.py`, a serial-port line monitor.

The program opens a serial port, optionally opens a log file in write
mode, then loops: whenever bytes are waiting it reads one line, decodes
it as UTF-8 with invalid sequences ignored, strips trailing whitespace,
and, if the result is non-empty, prints it to stdout (flushing) and, if
a log file is open, writes it plus a newline to the log (flushing).
KeyboardInterrupt ends the run cleanly; a missing port or any other
exception reports to stderr and exits with status 1.  A `finally`
block closes the log file (when opened) and then the serial handle.
-/

/-- Python whitespace predicate `str.isspace` restricted to a single
character: the set of code points Python considers whitespace, used by
`str.rstrip()` with no arguments. -/
def isPySpace (c : Char) : Bool :=
  let n := c.toNat
  (9 ≤ n && n ≤ 13) || n == 32 || (28 ≤ n && n ≤ 31) || n == 0x85 ||
  n == 0xA0 || n == 0x1680 || (0x2000 ≤ n && n ≤ 0x200A) ||
  n == 0x2028 || n == 0x2029 || n == 0x202F || n == 0x205F || n == 0x3000

/-- Python `str.rstrip()`: remove trailing whitespace characters. -/
def rstrip (s : List Char) : List Char :=
  (s.reverse.dropWhile isPySpace).reverse

/-- Is `b` a UTF-8 continuation byte (`0x80..0xBF`)? -/
def isCont (b : Nat) : Bool :=
  0x80 ≤ b && b ≤ 0xBF

/-- Legal range of the second byte of a three-byte UTF-8 sequence whose
lead byte is `b` (narrowed for `0xE0` and `0xED` to exclude overlong
encodings and surrogates, as CPython's decoder does). -/
def cont2ok (b b1 : Nat) : Bool :=
  if b == 0xE0 then 0xA0 ≤ b1 && b1 ≤ 0xBF
  else if b == 0xED then 0x80 ≤ b1 && b1 ≤ 0x9F
  else isCont b1

/-- Legal range of the second byte of a four-byte UTF-8 sequence whose
lead byte is `b` (narrowed for `0xF0` and `0xF4`). -/
def cont2ok4 (b b1 : Nat) : Bool :=
  if b == 0xF0 then 0x90 ≤ b1 && b1 ≤ 0xBF
  else if b == 0xF4 then 0x80 ≤ b1 && b1 ≤ 0x8F
  else isCont b1

/-- Worker for `utf8DecodeIgnore`, structurally recursive on a fuel
argument.  The fuel only bounds recursion depth: each step consumes at
least one byte and one unit of fuel, so starting the fuel at the length
of the byte list makes the fuel irrelevant to the result. -/
def utf8DecodeIgnoreAux : Nat → List Nat → List Char
  | _, [] => []
  | 0, _ :: _ => []
  | fuel + 1, b :: rest =>
    if b ≤ 0x7F then
      Char.ofNat b :: utf8DecodeIgnoreAux fuel rest
    else if 0xC2 ≤ b ∧ b ≤ 0xDF then
      match rest with
      | [] => []
      | b1 :: rest1 =>
        if isCont b1 then
          Char.ofNat ((b - 0xC0) * 0x40 + (b1 - 0x80)) :: utf8DecodeIgnoreAux fuel rest1
        else
          utf8DecodeIgnoreAux fuel rest
    else if 0xE0 ≤ b ∧ b ≤ 0xEF then
      match rest with
      | [] => []
      | b1 :: rest1 =>
        if cont2ok b b1 then
          match rest1 with
          | [] => []
          | b2 :: rest2 =>
            if isCont b2 then
              Char.ofNat ((b - 0xE0) * 0x1000 + (b1 - 0x80) * 0x40 + (b2 - 0x80)) ::
                utf8DecodeIgnoreAux fuel rest2
            else
              utf8DecodeIgnoreAux fuel rest1
        else
          utf8DecodeIgnoreAux fuel rest
    else if 0xF0 ≤ b ∧ b ≤ 0xF4 then
      match rest with
      | [] => []
      | b1 :: rest1 =>
        if cont2ok4 b b1 then
          match rest1 with
          | [] => []
          | b2 :: rest2 =>
            if isCont b2 then
              match rest2 with
              | [] => []
              | b3 :: rest3 =>
                if isCont b3 then
                  Char.ofNat ((b - 0xF0) * 0x40000 + (b1 - 0x80) * 0x1000 +
                      (b2 - 0x80) * 0x40 + (b3 - 0x80)) :: utf8DecodeIgnoreAux fuel rest3
                else
                  utf8DecodeIgnoreAux fuel rest2
            else
              utf8DecodeIgnoreAux fuel rest1
        else
          utf8DecodeIgnoreAux fuel rest
    else
      utf8DecodeIgnoreAux fuel rest

/-- `bytes.decode('utf-8', errors='ignore')`: decode a byte list as
UTF-8, silently dropping maximal ill-formed subparts instead of raising.
Never fails: every byte list yields a character list. -/
def utf8DecodeIgnore (bs : List Nat) : List Char :=
  utf8DecodeIgnoreAux bs.length bs

/-- The decode-and-strip step of the loop body:
`ser.readline().decode('utf-8', errors='ignore').rstrip()`. -/
def decodeStrip (bs : List Nat) : List Char :=
  rstrip (utf8DecodeIgnore bs)

example : utf8DecodeIgnore [0x41, 0x42, 0x0A] = ['A', 'B', '\n'] := by decide
example : decodeStrip [0x41, 0x42, 0x0A] = ['A', 'B'] := by decide
example : decodeStrip [0x0D, 0x0A] = [] := by decide
example : utf8DecodeIgnore [0xFF, 0x41] = ['A'] := by decide
example : utf8DecodeIgnore [0xC3, 0xA9] = ['é'] := by decide
example : utf8DecodeIgnore [0xC3] = [] := by decide
example : utf8DecodeIgnore [0xE2, 0x82, 0xAC] = ['€'] := by decide

/-- The parsed command-line arguments: `--port`, `--baud`, `--log`. -/
structure Args where
  port : String
  baud : Nat
  log : Option String
deriving DecidableEq

/-- How the (otherwise infinite) read loop ends: a `KeyboardInterrupt`
from the user, or some other exception raised during the loop body. -/
inductive LoopEnd where
  | interrupt
  | runtimeError
deriving DecidableEq

/-- The external environment of one run: whether opening the serial
port succeeds, whether a failed open raises `FileNotFoundError` (as
opposed to another exception class), whether opening the log file
succeeds, the sequence of loop iterations (`none` = `ser.in_waiting`
is falsy so the iteration does nothing, `some bs` = `ser.readline()`
returns the bytes `bs`), how the loop ends, and whether closing the
log file in the `finally` block raises. -/
structure Env where
  portExists : Bool
  portErrFnf : Bool
  logOpenOk : Bool
  chunks : List (Option (List Nat))
  loopEnd : LoopEnd
  logCloseRaises : Bool
deriving DecidableEq

/-- The distinct messages the program prints to `sys.stderr`. -/
inductive Msg where
  | connected
  | separator
  | loggingTo
  | blankSeparator
  | stoppedByUser
  | portNotFound
  | checkConnection
  | errorDesc
deriving DecidableEq

/-- Observable side effects of one loop iteration, in program order. -/
inductive Event where
  | stdoutWrite (line : List Char)
  | stdoutFlush
  | logWrite (text : List Char)
  | logFlush
deriving DecidableEq

/-- One iteration of the loop body once `ser.in_waiting` was truthy:
decode and strip the bytes; if the line is non-empty, print it to
stdout and flush, then, if a log file is open, write the line plus a
newline to the log and flush it. -/
def processChunk (logOpen : Bool) (bs : List Nat) : List Event :=
  let line := decodeStrip bs
  if line = [] then []
  else
    [Event.stdoutWrite line, Event.stdoutFlush] ++
      (if logOpen then [Event.logWrite (line ++ ['\n']), Event.logFlush] else [])

/-- The event trace of the whole read loop over a finite iteration
sequence (iterations with nothing waiting produce no events). -/
def loopEvents (logOpen : Bool) (chunks : List (Option (List Nat))) : List Event :=
  (chunks.map (fun c => match c with | none => [] | some bs => processChunk logOpen bs)).flatten

/-- The lines written to stdout in an event trace, in order. -/
def stdoutOf (evs : List Event) : List (List Char) :=
  evs.filterMap (fun e => match e with | Event.stdoutWrite l => some l | _ => none)

/-- The text written to the log file in an event trace, concatenated. -/
def logTextOf (evs : List Event) : List Char :=
  (evs.filterMap (fun e => match e with | Event.logWrite t => some t | _ => none)).flatten

/-- Python file open modes used by the program (`open(args.log, 'w')`). -/
inductive OpenMode where
  | write
deriving DecidableEq

/-- Contents of a file right after `open` succeeds, given its prior
contents (`none` = the file did not exist): mode `'w'` creates or
truncates, so the contents start empty either way. -/
def openFileContents : OpenMode → Option (List Char) → List Char
  | OpenMode.write, _ => []

/-- The observable outcome of one run of `main`. -/
structure RunResult where
  exitCode : Nat
  stdout : List (List Char)
  stderr : List Msg
  events : List Event
  logFs : Option (List Char)
  serOpened : Bool
  serClosed : Bool
  logOpened : Bool
  logClosed : Bool
deriving DecidableEq

/-- Model of `main` in `scripts/monitor.py` as a function of the parsed
arguments, the environment, and the prior contents of the log path
(`none` = no such file).  Mirrors the source's control flow:

* opening the serial port fails → the `except FileNotFoundError` or
  `except Exception` handler prints to stderr and calls `sys.exit(1)`;
  the `finally` block finds `log_file` still `None` and no `ser` in
  scope, so nothing is closed;
* opening the log file fails → `except Exception` prints and calls
  `sys.exit(1)`; the `finally` block closes only the serial handle;
* otherwise the loop runs over `env.chunks` and ends with either a
  `KeyboardInterrupt` (handled, leading to a normal return and exit
  code 0) or another exception (`sys.exit(1)`); the `finally` block
  closes the log file first (when opened) and then the serial handle —
  if closing the log file raises, the serial close is skipped and the
  escaping exception makes the process exit with code 1. -/
def runMonitor (args : Args) (env : Env) (initFs : Option (List Char)) : RunResult :=
  if env.portExists = false then
    { exitCode := 1
      stdout := []
      stderr := if env.portErrFnf then [Msg.portNotFound, Msg.checkConnection]
                else [Msg.errorDesc]
      events := []
      logFs := initFs
      serOpened := false
      serClosed := false
      logOpened := false
      logClosed := false }
  else
    match args.log with
    | none =>
      let evs := loopEvents false env.chunks
      { exitCode := match env.loopEnd with
                    | LoopEnd.interrupt => 0
                    | LoopEnd.runtimeError => 1
        stdout := stdoutOf evs
        stderr := [Msg.connected, Msg.separator] ++
          (match env.loopEnd with
           | LoopEnd.interrupt => [Msg.blankSeparator, Msg.stoppedByUser]
           | LoopEnd.runtimeError => [Msg.errorDesc])
        events := evs
        logFs := initFs
        serOpened := true
        serClosed := true
        logOpened := false
        logClosed := false }
    | some _ =>
      if env.logOpenOk = false then
        { exitCode := 1
          stdout := []
          stderr := [Msg.connected, Msg.separator, Msg.errorDesc]
          events := []
          logFs := initFs
          serOpened := true
          serClosed := true
          logOpened := false
          logClosed := false }
      else
        let evs := loopEvents true env.chunks
        { exitCode := if env.logCloseRaises then 1
                      else match env.loopEnd with
                           | LoopEnd.interrupt => 0
                           | LoopEnd.runtimeError => 1
          stdout := stdoutOf evs
          stderr := [Msg.connected, Msg.separator, Msg.loggingTo] ++
            (match env.loopEnd with
             | LoopEnd.interrupt => [Msg.blankSeparator, Msg.stoppedByUser]
             | LoopEnd.runtimeError => [Msg.errorDesc])
          events := evs
          logFs := some (openFileContents OpenMode.write initFs ++ logTextOf evs)
          serOpened := true
          serClosed := !env.logCloseRaises
          logOpened := true
          logClosed := true }

example :
    (runMonitor ⟨"/dev/ttyUSB0", 115200, some "x.log"⟩
      ⟨true, true, true, [some [0x52, 0x45, 0x41, 0x44, 0x59, 0x0A], none,
        some [0x4F, 0x4B, 0x0A]], LoopEnd.interrupt, false⟩ none).stdout =
      [['R', 'E', 'A', 'D', 'Y'], ['O', 'K']] := by decide

example :
    (runMonitor ⟨"/dev/ttyUSB0", 115200, some "x.log"⟩
      ⟨true, true, true, [some [0x52, 0x45, 0x41, 0x44, 0x59, 0x0A], none,
        some [0x4F, 0x4B, 0x0A]], LoopEnd.interrupt, false⟩ none).logFs =
      some ['R', 'E', 'A', 'D', 'Y', '\n', 'O', 'K', '\n'] := by decide

theorem loopEvents_nil (lo : Bool) : loopEvents lo [] = [] := rfl

theorem loopEvents_cons_some (lo : Bool) (bs : List Nat)
    (rest : List (Option (List Nat))) :
    loopEvents lo (some bs :: rest) = processChunk lo bs ++ loopEvents lo rest := by
  simp [loopEvents]

theorem loopEvents_cons_none (lo : Bool) (rest : List (Option (List Nat))) :
    loopEvents lo (none :: rest) = loopEvents lo rest := by
  simp [loopEvents]

theorem stdoutOf_append (a b : List Event) :
    stdoutOf (a ++ b) = stdoutOf a ++ stdoutOf b := by
  simp [stdoutOf]

theorem logTextOf_append (a b : List Event) :
    logTextOf (a ++ b) = logTextOf a ++ logTextOf b := by
  simp [logTextOf]

theorem stdoutOf_processChunk (lo : Bool) (bs : List Nat)
    (h : decodeStrip bs ≠ []) :
    stdoutOf (processChunk lo bs) = [decodeStrip bs] := by
  cases lo <;> simp [processChunk, stdoutOf, h]

theorem logTextOf_processChunk_true (bs : List Nat) (h : decodeStrip bs ≠ []) :
    logTextOf (processChunk true bs) = decodeStrip bs ++ ['\n'] := by
  simp [processChunk, logTextOf, h]

theorem stdoutOf_loop (lo : Bool) (bss : List (List Nat))
    (h : ∀ bs ∈ bss, decodeStrip bs ≠ []) :
    stdoutOf (loopEvents lo (bss.map some)) = bss.map decodeStrip := by
  induction bss with
  | nil => rfl
  | cons bs rest ih =>
    have h1 : decodeStrip bs ≠ [] := h bs (by simp)
    have h2 : ∀ b ∈ rest, decodeStrip b ≠ [] := fun b hb => h b (by simp [hb])
    simp [List.map_cons, loopEvents_cons_some, stdoutOf_append,
      stdoutOf_processChunk lo bs h1, ih h2]

theorem logTextOf_loop (bss : List (List Nat))
    (h : ∀ bs ∈ bss, decodeStrip bs ≠ []) :
    logTextOf (loopEvents true (bss.map some)) =
      (bss.map (fun bs => decodeStrip bs ++ ['\n'])).flatten := by
  induction bss with
  | nil => rfl
  | cons bs rest ih =>
    have h1 : decodeStrip bs ≠ [] := h bs (by simp)
    have h2 : ∀ b ∈ rest, decodeStrip b ≠ [] := fun b hb => h b (by simp [hb])
    simp [List.map_cons, loopEvents_cons_some, logTextOf_append,
      logTextOf_processChunk_true bs h1, ih h2]

theorem mem_processChunk_false (e : Event) (bs : List Nat)
    (he : e ∈ processChunk false bs) :
    e = Event.stdoutWrite (decodeStrip bs) ∨ e = Event.stdoutFlush := by
  by_cases h : decodeStrip bs = []
  · simp [processChunk, h] at he
  · simp [processChunk, h] at he
    tauto

theorem mem_loopEvents_false (e : Event) (chunks : List (Option (List Nat)))
    (he : e ∈ loopEvents false chunks) :
    (∃ l, e = Event.stdoutWrite l) ∨ e = Event.stdoutFlush := by
  simp only [loopEvents, List.mem_flatten, List.mem_map] at he
  obtain ⟨s, ⟨c, hc, rfl⟩, hes⟩ := he
  cases c with
  | none => simp at hes
  | some bs =>
    rcases mem_processChunk_false e bs hes with h | h
    · exact Or.inl ⟨_, h⟩
    · exact Or.inr h

/-- Claim C1: for any sequence of N non-empty decoded lines arriving in
order L1..LN, the monitor loop writes exactly L1..LN to stdout in that
order, and when a log path is configured the log file ends up containing
exactly L1..LN in that order, each followed by exactly one newline. -/
theorem monitor_writes_lines_in_order (portName : String) (baud : Nat)
    (logPath : Option String) (fnf lcr : Bool) (le : LoopEnd)
    (bss : List (List Nat)) (initFs : Option (List Char))
    (h : ∀ bs ∈ bss, decodeStrip bs ≠ []) :
    (runMonitor ⟨portName, baud, logPath⟩
        ⟨true, fnf, true, bss.map some, le, lcr⟩ initFs).stdout =
      bss.map decodeStrip ∧
    (logPath.isSome = true →
      (runMonitor ⟨portName, baud, logPath⟩
          ⟨true, fnf, true, bss.map some, le, lcr⟩ initFs).logFs =
        some ((bss.map (fun bs => decodeStrip bs ++ ['\n'])).flatten)) := by
  cases logPath with
  | none =>
    refine ⟨?_, by simp⟩
    simp [runMonitor, stdoutOf_loop false bss h]
  | some p =>
    refine ⟨?_, fun _ => ?_⟩
    · simp [runMonitor, stdoutOf_loop true bss h]
    · simp [runMonitor, openFileContents, logTextOf_loop bss h]

theorem monitor_writes_lines_in_order_witness :
    (runMonitor ⟨"/dev/ttyUSB0", 115200, some "x.log"⟩
        ⟨true, true, true,
          [[0x52, 0x45, 0x41, 0x44, 0x59, 0x0A], [0x4F, 0x4B, 0x0A]].map some,
          LoopEnd.interrupt, false⟩ none).stdout =
      [[0x52, 0x45, 0x41, 0x44, 0x59, 0x0A], [0x4F, 0x4B, 0x0A]].map decodeStrip ∧
    ((some "x.log").isSome = true →
      (runMonitor ⟨"/dev/ttyUSB0", 115200, some "x.log"⟩
          ⟨true, true, true,
            [[0x52, 0x45, 0x41, 0x44, 0x59, 0x0A], [0x4F, 0x4B, 0x0A]].map some,
            LoopEnd.interrupt, false⟩ none).logFs =
        some (([[0x52, 0x45, 0x41, 0x44, 0x59, 0x0A], [0x4F, 0x4B, 0x0A]].map
          (fun bs => decodeStrip bs ++ ['\n'])).flatten)) :=
  monitor_writes_lines_in_order "/dev/ttyUSB0" 115200 (some "x.log") true false
    LoopEnd.interrupt [[0x52, 0x45, 0x41, 0x44, 0x59, 0x0A], [0x4F, 0x4B, 0x0A]]
    none (by decide)

/-- Claim C5: for every byte sequence fed through the decode-and-strip
step, if the result after stripping trailing whitespace is empty, the
iteration produces no events at all, so nothing is written to stdout or
to the log file. -/
theorem empty_line_not_forwarded (lo : Bool) (bs : List Nat)
    (h : decodeStrip bs = []) :
    processChunk lo bs = [] := by
  simp [processChunk, h]

theorem empty_line_not_forwarded_witness :
    processChunk true [0x0D, 0x0A] = [] :=
  empty_line_not_forwarded true [0x0D, 0x0A] (by decide)

/-- Claim C6: for a non-empty line processed in one loop iteration with
the log open, the events are exactly stdout write, stdout flush, log
write, log flush — so the stdout write and flush precede the log write
and flush — and the whole iteration's events precede those of all later
iterations, so both sinks are flushed before the next line is
processed. -/
theorem line_event_order (bs : List Nat) (rest : List (Option (List Nat)))
    (h : decodeStrip bs ≠ []) :
    processChunk true bs =
      [Event.stdoutWrite (decodeStrip bs), Event.stdoutFlush,
       Event.logWrite (decodeStrip bs ++ ['\n']), Event.logFlush] ∧
    loopEvents true (some bs :: rest) = processChunk true bs ++ loopEvents true rest :=
  ⟨by simp [processChunk, h], loopEvents_cons_some true bs rest⟩

theorem line_event_order_witness :
    processChunk true [0x4F, 0x4B, 0x0A] =
      [Event.stdoutWrite (decodeStrip [0x4F, 0x4B, 0x0A]), Event.stdoutFlush,
       Event.logWrite (decodeStrip [0x4F, 0x4B, 0x0A] ++ ['\n']), Event.logFlush] ∧
    loopEvents true (some [0x4F, 0x4B, 0x0A] :: [none]) =
      processChunk true [0x4F, 0x4B, 0x0A] ++ loopEvents true [none] :=
  line_event_order [0x4F, 0x4B, 0x0A] [none] (by decide)

/-- Claim C2 counterexample: the two closes are not independent.  In the
`finally` block `log_file.close()` runs before `ser.close()`, with no
inner exception handling, so when closing the log file raises, the
serial connection — although opened — is never closed. -/
theorem cleanup_not_independent_counterexample :
    (runMonitor ⟨"/dev/ttyUSB0", 115200, some "x.log"⟩
        ⟨true, true, true, [], LoopEnd.interrupt, true⟩ none).serOpened = true ∧
    (runMonitor ⟨"/dev/ttyUSB0", 115200, some "x.log"⟩
        ⟨true, true, true, [], LoopEnd.interrupt, true⟩ none).logOpened = true ∧
    (runMonitor ⟨"/dev/ttyUSB0", 115200, some "x.log"⟩
        ⟨true, true, true, [], LoopEnd.interrupt, true⟩ none).logClosed = true ∧
    (runMonitor ⟨"/dev/ttyUSB0", 115200, some "x.log"⟩
        ⟨true, true, true, [], LoopEnd.interrupt, true⟩ none).serClosed = false := by
  decide

/-- Claim C2 (amended): on every exit path of the monitor, the log
file, if it was opened, is closed; and the serial connection, if it was
opened, is also closed provided that closing the log file (when one was
opened) does not raise — if the log close raises, the serial close is
skipped. -/
theorem cleanup_on_all_paths (args : Args) (env : Env) (fs : Option (List Char)) :
    ((runMonitor args env fs).logOpened = true →
      (runMonitor args env fs).logClosed = true) ∧
    ((runMonitor args env fs).serOpened = true →
      ((runMonitor args env fs).logOpened = true → env.logCloseRaises = false) →
      (runMonitor args env fs).serClosed = true) := by
  obtain ⟨pn, bd, lg⟩ := args
  obtain ⟨pe, pf, lo, ch, le, lcr⟩ := env
  cases pe <;> cases lg <;> cases lo <;> cases lcr <;> simp [runMonitor]

theorem cleanup_on_all_paths_witness :
    (runMonitor ⟨"/dev/ttyUSB0", 115200, some "x.log"⟩
        ⟨true, true, true, [], LoopEnd.interrupt, false⟩ none).logClosed = true ∧
    (runMonitor ⟨"/dev/ttyUSB0", 115200, some "x.log"⟩
        ⟨true, true, true, [], LoopEnd.interrupt, false⟩ none).serClosed = true :=
  ⟨(cleanup_on_all_paths ⟨"/dev/ttyUSB0", 115200, some "x.log"⟩
      ⟨true, true, true, [], LoopEnd.interrupt, false⟩ none).1 (by decide),
   (cleanup_on_all_paths ⟨"/dev/ttyUSB0", 115200, some "x.log"⟩
      ⟨true, true, true, [], LoopEnd.interrupt, false⟩ none).2 (by decide)
     (fun _ => rfl)⟩

/-- Claim C3: assuming the cleanup closes succeed, the process exit
code is always 0 or 1, and it is 0 exactly when the port opened, the
log file (when requested) opened, and the run ended by user
interruption; on a port-open failure, a log-open failure, or any other
unhandled loop error it is 1. -/
theorem exit_code_spec (args : Args) (env : Env) (fs : Option (List Char))
    (hclean : env.logCloseRaises = false) :
    ((runMonitor args env fs).exitCode = 0 ∨
      (runMonitor args env fs).exitCode = 1) ∧
    ((runMonitor args env fs).exitCode = 0 ↔
      (env.portExists = true ∧ (args.log.isSome = true → env.logOpenOk = true) ∧
        env.loopEnd = LoopEnd.interrupt)) := by
  obtain ⟨pn, bd, lg⟩ := args
  obtain ⟨pe, pf, lo, ch, le, lcr⟩ := env
  cases hclean
  cases pe <;> cases lg <;> cases lo <;> cases le <;> simp [runMonitor]

theorem exit_code_spec_witness :
    (runMonitor ⟨"/dev/ttyUSB0", 115200, none⟩
        ⟨true, true, true, [], LoopEnd.interrupt, false⟩ none).exitCode = 0 :=
  ((exit_code_spec ⟨"/dev/ttyUSB0", 115200, none⟩
      ⟨true, true, true, [], LoopEnd.interrupt, false⟩ none rfl).2).mpr
    (by decide)

/-- Claim C4: if the requested serial port does not exist, the process
exits with status 1, an error message goes to the error stream, no
lines are written to stdout, and the log path's prior filesystem state
is untouched (no log file is created or written), even when a log path
was supplied. -/
theorem port_missing_no_output (args : Args) (env : Env) (fs : Option (List Char))
    (h : env.portExists = false) :
    (runMonitor args env fs).exitCode = 1 ∧
    (runMonitor args env fs).stderr ≠ [] ∧
    (runMonitor args env fs).stdout = [] ∧
    (runMonitor args env fs).logFs = fs ∧
    (runMonitor args env fs).logOpened = false := by
  obtain ⟨pe, pf, lo, ch, le, lcr⟩ := env
  cases h
  cases pf <;> simp [runMonitor]

theorem port_missing_no_output_witness :
    (runMonitor ⟨"/dev/doesnotexist", 115200, some "x.log"⟩
        ⟨false, true, true, [some [0x41]], LoopEnd.interrupt, false⟩ none).exitCode = 1 ∧
    (runMonitor ⟨"/dev/doesnotexist", 115200, some "x.log"⟩
        ⟨false, true, true, [some [0x41]], LoopEnd.interrupt, false⟩ none).stderr ≠ [] ∧
    (runMonitor ⟨"/dev/doesnotexist", 115200, some "x.log"⟩
        ⟨false, true, true, [some [0x41]], LoopEnd.interrupt, false⟩ none).stdout = [] ∧
    (runMonitor ⟨"/dev/doesnotexist", 115200, some "x.log"⟩
        ⟨false, true, true, [some [0x41]], LoopEnd.interrupt, false⟩ none).logFs = none ∧
    (runMonitor ⟨"/dev/doesnotexist", 115200, some "x.log"⟩
        ⟨false, true, true, [some [0x41]], LoopEnd.interrupt, false⟩ none).logOpened = false :=
  port_missing_no_output ⟨"/dev/doesnotexist", 115200, some "x.log"⟩
    ⟨false, true, true, [some [0x41]], LoopEnd.interrupt, false⟩ none rfl

/-- Claim C8: when a log path is configured and both opens succeed, the
final log file contents are exactly the text the loop wrote, regardless
of the file's prior contents — `open(args.log, 'w')` truncates, so
re-running with the same log path discards prior contents rather than
appending to them. -/
theorem log_truncated_on_open (args : Args) (env : Env) (fs : Option (List Char))
    (p : String) (hlog : args.log = some p) (hport : env.portExists = true)
    (hopen : env.logOpenOk = true) :
    (runMonitor args env fs).logFs =
      some (logTextOf (loopEvents true env.chunks)) ∧
    (runMonitor args env fs).logFs = (runMonitor args env none).logFs := by
  obtain ⟨pn, bd, lg⟩ := args
  cases hlog
  constructor <;> simp [runMonitor, hport, hopen, openFileContents]

theorem log_truncated_on_open_witness :
    (runMonitor ⟨"/dev/ttyUSB0", 115200, some "x.log"⟩
        ⟨true, true, true, [some [0x4F, 0x4B, 0x0A]], LoopEnd.interrupt, false⟩
        (some ['O', 'L', 'D'])).logFs =
      some (logTextOf (loopEvents true [some [0x4F, 0x4B, 0x0A]])) ∧
    (runMonitor ⟨"/dev/ttyUSB0", 115200, some "x.log"⟩
        ⟨true, true, true, [some [0x4F, 0x4B, 0x0A]], LoopEnd.interrupt, false⟩
        (some ['O', 'L', 'D'])).logFs =
      (runMonitor ⟨"/dev/ttyUSB0", 115200, some "x.log"⟩
        ⟨true, true, true, [some [0x4F, 0x4B, 0x0A]], LoopEnd.interrupt, false⟩
        none).logFs :=
  log_truncated_on_open ⟨"/dev/ttyUSB0", 115200, some "x.log"⟩
    ⟨true, true, true, [some [0x4F, 0x4B, 0x0A]], LoopEnd.interrupt, false⟩
    (some ['O', 'L', 'D']) "x.log" rfl rfl rfl

/-- Claim C9: when no log path is given, the monitor never opens,
writes, or closes any log file: the log path's filesystem state is
unchanged, the log handle is never opened or closed, and the loop's
event trace contains no log-write and no log-flush event. -/
theorem no_log_without_flag (args : Args) (env : Env) (fs : Option (List Char))
    (h : args.log = none) :
    (runMonitor args env fs).logFs = fs ∧
    (runMonitor args env fs).logOpened = false ∧
    (runMonitor args env fs).logClosed = false ∧
    (∀ e ∈ (runMonitor args env fs).events,
      (∀ t, e ≠ Event.logWrite t) ∧ e ≠ Event.logFlush) := by
  obtain ⟨pn, bd, lg⟩ := args
  cases h
  obtain ⟨pe, pf, lo, ch, le, lcr⟩ := env
  cases pe
  · refine ⟨by simp [runMonitor], by simp [runMonitor], by simp [runMonitor], ?_⟩
    intro e he
    simp [runMonitor] at he
  · refine ⟨by simp [runMonitor], by simp [runMonitor], by simp [runMonitor], ?_⟩
    intro e he
    have he' : e ∈ loopEvents false ch := by simpa [runMonitor] using he
    rcases mem_loopEvents_false e ch he' with ⟨l, rfl⟩ | rfl
    · exact ⟨fun t => by simp, by simp⟩
    · exact ⟨fun t => by simp, by simp⟩

theorem no_log_without_flag_witness :
    (runMonitor ⟨"/dev/ttyUSB0", 115200, none⟩
        ⟨true, true, true, [some [0x4F, 0x4B, 0x0A]], LoopEnd.interrupt, false⟩
        (some ['O', 'L', 'D'])).logFs = some ['O', 'L', 'D'] ∧
    (runMonitor ⟨"/dev/ttyUSB0", 115200, none⟩
        ⟨true, true, true, [some [0x4F, 0x4B, 0x0A]], LoopEnd.interrupt, false⟩
        (some ['O', 'L', 'D'])).logOpened = false :=
  ⟨(no_log_without_flag ⟨"/dev/ttyUSB0", 115200, none⟩
      ⟨true, true, true, [some [0x4F, 0x4B, 0x0A]], LoopEnd.interrupt, false⟩
      (some ['O', 'L', 'D']) rfl).1,
   (no_log_without_flag ⟨"/dev/ttyUSB0", 115200, none⟩
      ⟨true, true, true, [some [0x4F, 0x4B, 0x0A]], LoopEnd.interrupt, false⟩
      (some ['O', 'L', 'D']) rfl).2.1⟩

/-- Claim C10: the monitor's observable output is deterministic: two
runs with the same arguments and the same incoming byte chunks — even
if they differ in how the loop ends, in cleanup failures, or in the
log path's prior contents — write the same line sequence to stdout,
and, when logging is enabled, leave the same final log file contents. -/
theorem deterministic_output (args : Args) (env1 env2 : Env)
    (fs1 fs2 : Option (List Char))
    (h1 : env1.portExists = true) (h2 : env2.portExists = true)
    (h3 : env1.logOpenOk = true) (h4 : env2.logOpenOk = true)
    (hc : env1.chunks = env2.chunks) :
    (runMonitor args env1 fs1).stdout = (runMonitor args env2 fs2).stdout ∧
    (args.log.isSome = true →
      (runMonitor args env1 fs1).logFs = (runMonitor args env2 fs2).logFs) := by
  obtain ⟨pn, bd, lg⟩ := args
  cases lg <;> simp [runMonitor, h1, h2, h3, h4, hc, openFileContents]

theorem deterministic_output_witness :
    (runMonitor ⟨"/dev/ttyUSB0", 115200, some "x.log"⟩
        ⟨true, true, true, [some [0x4F, 0x4B, 0x0A]], LoopEnd.interrupt, false⟩
        none).stdout =
      (runMonitor ⟨"/dev/ttyUSB0", 115200, some "x.log"⟩
        ⟨true, false, true, [some [0x4F, 0x4B, 0x0A]], LoopEnd.runtimeError, true⟩
        (some ['O', 'L', 'D'])).stdout ∧
    ((some "x.log").isSome = true →
      (runMonitor ⟨"/dev/ttyUSB0", 115200, some "x.log"⟩
          ⟨true, true, true, [some [0x4F, 0x4B, 0x0A]], LoopEnd.interrupt, false⟩
          none).logFs =
        (runMonitor ⟨"/dev/ttyUSB0", 115200, some "x.log"⟩
          ⟨true, false, true, [some [0x4F, 0x4B, 0x0A]], LoopEnd.runtimeError, true⟩
          (some ['O', 'L', 'D'])).logFs) :=
  deterministic_output ⟨"/dev/ttyUSB0", 115200, some "x.log"⟩
    ⟨true, true, true, [some [0x4F, 0x4B, 0x0A]], LoopEnd.interrupt, false⟩
    ⟨true, false, true, [some [0x4F, 0x4B, 0x0A]], LoopEnd.runtimeError, true⟩
    none (some ['O', 'L', 'D']) rfl rfl rfl rfl rfl

/-- Claim C7: the decode step is total — it is a function returning a
character list for every byte sequence, never an error; bytes that can
start no valid UTF-8 sequence (stray continuation bytes `0x80..0xBF`,
the overlong leads `0xC0`/`0xC1`, and `0xF5..` which exceed the Unicode
range) are dropped rather than raising; and the decoded text has its
trailing whitespace (including the newline) stripped, so it never ends
in a whitespace character. -/
theorem decode_total_and_stripped (bs : List Nat) (b : Nat)
    (hb : (0x80 ≤ b ∧ b ≤ 0xC1) ∨ 0xF5 ≤ b) :
    utf8DecodeIgnore (b :: bs) = utf8DecodeIgnore bs ∧
    (∀ c, (decodeStrip bs).getLast? = some c → isPySpace c = false) := by
  constructor
  · show utf8DecodeIgnoreAux (b :: bs).length (b :: bs) = _
    have h1 : ¬b ≤ 0x7F := by omega
    have h2 : ¬(0xC2 ≤ b ∧ b ≤ 0xDF) := by omega
    have h3 : ¬(0xE0 ≤ b ∧ b ≤ 0xEF) := by omega
    have h4 : ¬(0xF0 ≤ b ∧ b ≤ 0xF4) := by omega
    simp only [List.length_cons, utf8DecodeIgnoreAux, if_neg h1, if_neg h2,
      if_neg h3, if_neg h4]
    rfl
  · intro c hc
    have hd := List.head?_dropWhile_not isPySpace (utf8DecodeIgnore bs).reverse
    rw [decodeStrip, rstrip, List.getLast?_reverse] at hc
    rw [hc] at hd
    exact hd

theorem decode_total_and_stripped_witness :
    utf8DecodeIgnore (0xFF :: [0x41, 0x20]) = utf8DecodeIgnore [0x41, 0x20] ∧
    isPySpace 'A' = false :=
  ⟨(decode_total_and_stripped [0x41, 0x20] 0xFF (by decide)).1,
   (decode_total_and_stripped [0x41, 0x20] 0xFF (by decide)).2 'A' (by decide)⟩
